import Mathlib

/-
Shallow embedding of the orion_lang bytecode virtual machine core
(src/src/vm.c): the tagged Value model, the growable evaluation Stack
(pushStack / popStack / peekStack / peekStackReference / resetStack),
the fetch-decode-execute loop `run`, and the runtimeError reporting path.

Modelling conventions:
- A C `double` payload is modelled as a rational number (ℚ).  All the
  properties verified here exercise addition, subtraction, multiplication,
  negation, ±1 and order comparisons on small integral values, where IEEE
  double arithmetic is exact, so the rational model agrees with the C
  semantics on every input appearing in a theorem below.  IEEE rounding,
  infinities and NaN (division by zero) are not modelled.
- A failing C `assert` (stack underflow in popStack / peekStack) aborts
  the process; it is modelled as the distinguished outcome `assertFail`.
- An out-of-bounds buffer access that the C performs without any check
  (reading past the code array, a constant-pool index out of range, or
  `peekStackReference` on an empty stack) is undefined behaviour, not an
  abort; it is modelled as the distinguished outcome `oobAccess`.
- The stack's live region data[0..count) is modelled as a `List Value`
  (so `count` is the list length); `capacity` is carried separately.
  `GROW_ARRAY` (orion_memory.h, not part of src/) is a realloc which, per
  the spec, preserves existing contents and order.
-/

/-- Value (value.h tag model): a closed tagged union over exactly three
variants, Nil / Bool / Number, as specified and as used by vm.c. -/
inductive Value where
  | nil : Value
  | bool (b : Bool) : Value
  | number (n : ℚ) : Value
deriving DecidableEq

/-- IS_NUMBER predicate on a Value. -/
def Value.isNumber : Value → Bool
  | .number _ => true
  | _ => false

/-- AS_NUMBER payload read.  The C macro reinterprets the union field and is
only ever invoked after an IS_NUMBER check in vm.c; the default branch is
never reached on those paths. -/
def Value.asNumber : Value → ℚ
  | .number n => n
  | _ => 0

/-- AS_BOOL payload read; in vm.c it is only invoked on values whose tag was
checked to be VAL_BOOL. -/
def Value.asBool : Value → Bool
  | .bool b => b
  | _ => false

/-- Modelled from the spec: isFalseyValue is declared in value.h, which is not
part of src/.  Truthiness rule of the spec (section 4.2): Nil and Bool(false)
are falsey; Bool(true) and every Number, including zero, are truthy. -/
def isFalseyValue : Value → Bool
  | .nil => true
  | .bool b => !b
  | .number _ => false

/-- Modelled from the spec: toBool is declared in value.h, which is not part
of src/.  The logical binary opcodes coerce any operand via the truthiness
rule, not via a numeric cast. -/
def toBool (v : Value) : Bool := !isFalseyValue v

/-- Evaluation Stack: the live region data[0..count) as a list (count is the
list length) plus the tracked capacity. -/
structure Stack where
  capacity : Nat
  data : List Value
deriving DecidableEq

/-- count field of the C Stack. -/
def Stack.count (s : Stack) : Nat := s.data.length

/-- Modelled from the spec: STACK_DEF_CAP is defined in vm.h, which is not
part of src/; it is the positive initial capacity installed by initStack. -/
def STACK_DEF_CAP : Nat := 256

/-- initStack: fresh stack with count 0 and the default capacity. -/
def initStack : Stack := ⟨STACK_DEF_CAP, []⟩

/-- isStackEmpty: count == 0. -/
def isStackEmpty (s : Stack) : Bool := s.data.length = 0

/-- isStackFull: count == capacity. -/
def isStackFull (s : Stack) : Bool := s.data.length = s.capacity

/-- pushStack: double the capacity when full (realloc preserving contents),
then append the value at the top. -/
def pushStack (s : Stack) (v : Value) : Stack :=
  ⟨if isStackFull s then s.capacity * 2 else s.capacity, s.data ++ [v]⟩

/-- popStack: asserts the stack is non-empty (modelled as `none`, a fatal
abort), then removes and returns the top value. -/
def popStack (s : Stack) : Option (Value × Stack) :=
  match s.data.getLast? with
  | none => none
  | some v => some (v, ⟨s.capacity, s.data.dropLast⟩)

/-- resetStack: count := 0 (contents beyond the live region unspecified). -/
def resetStack (s : Stack) : Stack := ⟨s.capacity, []⟩

/-- Outcome of a single stack slot access, distinguishing a checked abort
(failed assert) from an unchecked out-of-range access. -/
inductive PeekResult where
  | ok (v : Value) : PeekResult
  | assertAbort : PeekResult
  | uncheckedOutOfBounds : PeekResult
deriving DecidableEq

/-- peekStack: asserts non-emptiness, then reads data[count - 1 - distance]
(the index is computed in C integer arithmetic; a distance beyond the live
region yields an unchecked out-of-range read, the assert only guards
emptiness). -/
def peekStack (s : Stack) (distance : Nat) : PeekResult :=
  if s.data.length = 0 then .assertAbort
  else if ((s.data.length : Int) - 1 - (distance : Int)) < 0 then .uncheckedOutOfBounds
  else
    match s.data[((s.data.length : Int) - 1 - (distance : Int)).toNat]? with
    | some v => .ok v
    | none => .uncheckedOutOfBounds

/-- peekStackReference: returns data + (count - 1 - distance) with no check of
any kind — unlike peekStack there is no assert, so on an empty stack the
computed address is simply dereferenced out of bounds. -/
def peekStackReference (s : Stack) (distance : Nat) : PeekResult :=
  if ((s.data.length : Int) - 1 - (distance : Int)) < 0 then .uncheckedOutOfBounds
  else
    match s.data[((s.data.length : Int) - 1 - (distance : Int)).toNat]? with
    | some v => .ok v
    | none => .uncheckedOutOfBounds

/-- Write through the mutable reference obtained by peekStackReference(s, 0):
replace the top slot in place, leaving count, capacity and all other slots
unchanged. -/
def writeTop (s : Stack) (v : Value) : Stack :=
  ⟨s.capacity, s.data.set (s.data.length - 1) v⟩

/-- Chunk (chunk.h shape as consumed read-only by vm.c): code bytes, constant
pool, and a source-line table with one entry per code byte. -/
structure Chunk where
  code : List Nat
  constants : List Value
  lines : List Int
deriving DecidableEq

/-- VM state during run: the chunk, the instruction cursor ip (a byte offset
into code), and the evaluation stack. -/
structure VM where
  chunk : Chunk
  ip : Nat
  stack : Stack
deriving DecidableEq

/-
Modelled from the spec: the opcode enumeration lives in chunk.h, which is not
part of src/.  The spec fixes the instruction set but not the byte values, and
no verified property depends on the particular numbering, so the bytes are
assigned 0.. in the order of the cases of the switch in run (vm.c).
-/

/-- OP_RET opcode byte. -/
def OP_RET : Nat := 0

/-- OP_CONSTANT opcode byte (followed by a one-byte constant-pool index). -/
def OP_CONSTANT : Nat := 1

/-- OP_TRUE opcode byte. -/
def OP_TRUE : Nat := 2

/-- OP_FALSE opcode byte. -/
def OP_FALSE : Nat := 3

/-- OP_NIL opcode byte. -/
def OP_NIL : Nat := 4

/-- OP_NEGATE opcode byte. -/
def OP_NEGATE : Nat := 5

/-- OP_INC opcode byte. -/
def OP_INC : Nat := 6

/-- OP_DEC opcode byte. -/
def OP_DEC : Nat := 7

/-- OP_NOT opcode byte. -/
def OP_NOT : Nat := 8

/-- OP_AND opcode byte. -/
def OP_AND : Nat := 9

/-- OP_OR opcode byte. -/
def OP_OR : Nat := 10

/-- OP_XOR opcode byte. -/
def OP_XOR : Nat := 11

/-- OP_EQUAL opcode byte. -/
def OP_EQUAL : Nat := 12

/-- OP_NOT_EQUAL opcode byte. -/
def OP_NOT_EQUAL : Nat := 13

/-- OP_GREATER_EQUAL opcode byte. -/
def OP_GREATER_EQUAL : Nat := 14

/-- OP_GREATER opcode byte. -/
def OP_GREATER : Nat := 15

/-- OP_LESS_EQUAL opcode byte. -/
def OP_LESS_EQUAL : Nat := 16

/-- OP_LESS opcode byte. -/
def OP_LESS : Nat := 17

/-- OP_ADD opcode byte. -/
def OP_ADD : Nat := 18

/-- OP_SUB opcode byte. -/
def OP_SUB : Nat := 19

/-- OP_MULT opcode byte. -/
def OP_MULT : Nat := 20

/-- OP_DIV opcode byte. -/
def OP_DIV : Nat := 21

/-- Terminal result of a run: INTERPRET_OK carrying the value printed and
returned by OP_RET, INTERPRET_RUNTIME_ERROR, a fatal failed assert, or an
unchecked out-of-bounds access (undefined behaviour in the C). -/
inductive RunResult where
  | ok (v : Value) : RunResult
  | runtimeErr : RunResult
  | assertFail : RunResult
  | oobAccess : RunResult
deriving DecidableEq

/-- Everything observable when the loop stops: the result, the diagnostics
written to stderr (message text and resolved source line), the ip at the
moment runtimeError fired (none unless a runtime error was reported), and the
final stack. -/
structure RunOutcome where
  result : RunResult
  diags : List (String × Int)
  errIp : Option Nat
  stack : Stack
deriving DecidableEq

/-- One iteration of the dispatch loop either continues with a new VM state or
stops with an outcome. -/
inductive StepResult where
  | next (vm : VM) : StepResult
  | stop (out : RunOutcome) : StepResult
deriving DecidableEq

/-- runtimeError (vm.c): print the message, resolve the line from
lines[(ip - code) - 1] (the byte just before the current cursor, i.e. the
opcode byte of the instruction that faulted), and reset the stack.  The run
then returns INTERPRET_RUNTIME_ERROR. -/
def runtimeError (vm : VM) (msg : String) : RunOutcome :=
  ⟨.runtimeErr, [(msg, (vm.chunk.lines[vm.ip - 1]?).getD 0)], some vm.ip,
    resetStack vm.stack⟩

/-- BINARY_OP macro: the guard is the C condition
!IS_NUMBER(peek(0)) || !IS_NUMBER(peek(1)), evaluated left to right with
short-circuit: peek(0) is evaluated first, and when its value is not a Number
the runtimeError "Operands must be numbers." fires without ever evaluating
peek(1).  Only when peek(0) is a Number is peek(1) evaluated; its assert
guards only emptiness, so with exactly one live slot (a Number on top)
peek(1) is an unchecked out-of-range read.  When both are Numbers: pop b,
pop a, and push RESULT_VAL(a op b). -/
def BINARY_OP (vm : VM) (mk : ℚ → ℚ → Value) : StepResult :=
  match peekStack vm.stack 0 with
  | .assertAbort => .stop ⟨.assertFail, [], none, vm.stack⟩
  | .uncheckedOutOfBounds => .stop ⟨.oobAccess, [], none, vm.stack⟩
  | .ok vb =>
    if !vb.isNumber then .stop (runtimeError vm "Operands must be numbers.")
    else
      match peekStack vm.stack 1 with
      | .assertAbort => .stop ⟨.assertFail, [], none, vm.stack⟩
      | .uncheckedOutOfBounds => .stop ⟨.oobAccess, [], none, vm.stack⟩
      | .ok va =>
        if !va.isNumber then .stop (runtimeError vm "Operands must be numbers.")
        else
          match popStack vm.stack with
          | none => .stop ⟨.assertFail, [], none, vm.stack⟩
          | some (b, s1) =>
            match popStack s1 with
            | none => .stop ⟨.assertFail, [], none, s1⟩
            | some (a, s2) => .next ⟨vm.chunk, vm.ip, pushStack s2 (mk a.asNumber b.asNumber)⟩

/-- BINARY_LOGIC_OP macro: pop b, pop a, push BOOL_VAL(toBool(a) op toBool(b)).
No type requirement: any operands are legal, coerced via truthiness. -/
def BINARY_LOGIC_OP (vm : VM) (op : Bool → Bool → Bool) : StepResult :=
  match popStack vm.stack with
  | none => .stop ⟨.assertFail, [], none, vm.stack⟩
  | some (b, s1) =>
    match popStack s1 with
    | none => .stop ⟨.assertFail, [], none, s1⟩
    | some (a, s2) => .next ⟨vm.chunk, vm.ip, pushStack s2 (.bool (op (toBool a) (toBool b)))⟩

/-- EQUALITY_OP macro: pop b, pop a; if the tags differ push BOOL_VAL(false)
(note: regardless of which operator the macro was instantiated with);
otherwise Nil/Nil pushes BOOL_VAL(true) (again regardless of the operator),
and Bool/Bool resp. Number/Number compare payloads with the operator. -/
def EQUALITY_OP (vm : VM) (bop : Bool → Bool → Bool) (qop : ℚ → ℚ → Bool) : StepResult :=
  match popStack vm.stack with
  | none => .stop ⟨.assertFail, [], none, vm.stack⟩
  | some (b, s1) =>
    match popStack s1 with
    | none => .stop ⟨.assertFail, [], none, s1⟩
    | some (a, s2) =>
      let res : Bool :=
        match a, b with
        | .nil, .nil => true
        | .bool x, .bool y => bop x y
        | .number x, .number y => qop x y
        | _, _ => false
      .next ⟨vm.chunk, vm.ip, pushStack s2 (.bool res)⟩

/-- Common shape of the OP_NEGATE / OP_INC / OP_DEC cases: peekStackReference
to the top slot (an unchecked access — dereferencing it on an empty stack is
out of bounds), THROW_IF_NAN on the value read, then overwrite the slot in
place with f applied to the number. -/
def unaryNumOp (vm : VM) (f : ℚ → ℚ) : StepResult :=
  match peekStackReference vm.stack 0 with
  | .ok v =>
    if v.isNumber then .next ⟨vm.chunk, vm.ip, writeTop vm.stack (.number (f v.asNumber))⟩
    else .stop (runtimeError vm "Operand must be a number.")
  | _ => .stop ⟨.oobAccess, [], none, vm.stack⟩

/-- One iteration of the run loop of vm.c: fetch the byte at ip (reading past
the end of code is an unchecked access), advance ip, then dispatch.  The
switch has no default case: a byte matching no opcode falls through and the
loop silently continues at the next byte. -/
def step (vm : VM) : StepResult :=
  match vm.chunk.code[vm.ip]? with
  | none => .stop ⟨.oobAccess, [], none, vm.stack⟩
  | some instruction =>
    let vm1 : VM := ⟨vm.chunk, vm.ip + 1, vm.stack⟩
    match instruction with
    | 0 => -- OP_RET: pop, print, INTERPRET_OK
      match popStack vm1.stack with
      | none => .stop ⟨.assertFail, [], none, vm1.stack⟩
      | some (ret, s) => .stop ⟨.ok ret, [], none, s⟩
    | 1 => -- OP_CONSTANT: read pool index byte, THROW_IF_NAN, advance, push
      match vm1.chunk.code[vm1.ip]? with
      | none => .stop ⟨.oobAccess, [], none, vm1.stack⟩
      | some idx =>
        match vm1.chunk.constants[idx]? with
        | none => .stop ⟨.oobAccess, [], none, vm1.stack⟩
        | some c =>
          if c.isNumber then .next ⟨vm1.chunk, vm1.ip + 1, pushStack vm1.stack c⟩
          else .stop (runtimeError vm1 "Operand must be a number.")
    | 2 => .next ⟨vm1.chunk, vm1.ip, pushStack vm1.stack (.bool true)⟩ -- OP_TRUE
    | 3 => .next ⟨vm1.chunk, vm1.ip, pushStack vm1.stack (.bool false)⟩ -- OP_FALSE
    | 4 => .next ⟨vm1.chunk, vm1.ip, pushStack vm1.stack .nil⟩ -- OP_NIL
    | 5 => unaryNumOp vm1 (fun n => n * (-1)) -- OP_NEGATE: AS_NUMBER(*val) *= -1
    | 6 => unaryNumOp vm1 (fun n => n + 1) -- OP_INC
    | 7 => unaryNumOp vm1 (fun n => n - 1) -- OP_DEC
    | 8 => -- OP_NOT: push BOOL_VAL(isFalseyValue(pop))
      match popStack vm1.stack with
      | none => .stop ⟨.assertFail, [], none, vm1.stack⟩
      | some (v, s) => .next ⟨vm1.chunk, vm1.ip, pushStack s (.bool (isFalseyValue v))⟩
    | 9 => BINARY_LOGIC_OP vm1 (fun a b => a && b) -- OP_AND
    | 10 => BINARY_LOGIC_OP vm1 (fun a b => a || b) -- OP_OR
    | 11 => BINARY_LOGIC_OP vm1 (fun a b => xor a b) -- OP_XOR
    | 12 => EQUALITY_OP vm1 (fun a b => a == b) (fun a b => a == b) -- OP_EQUAL
    | 13 => EQUALITY_OP vm1 (fun a b => a != b) (fun a b => a != b) -- OP_NOT_EQUAL
    | 14 => BINARY_OP vm1 (fun a b => .bool (decide (a > b))) -- OP_GREATER_EQUAL: the C uses strict >
    | 15 => BINARY_OP vm1 (fun a b => .bool (decide (a > b))) -- OP_GREATER
    | 16 => BINARY_OP vm1 (fun a b => .bool (decide (a ≤ b))) -- OP_LESS_EQUAL
    | 17 => BINARY_OP vm1 (fun a b => .bool (decide (a < b))) -- OP_LESS
    | 18 => BINARY_OP vm1 (fun a b => .number (a + b)) -- OP_ADD
    | 19 => BINARY_OP vm1 (fun a b => .number (a - b)) -- OP_SUB
    | 20 => BINARY_OP vm1 (fun a b => .number (a * b)) -- OP_MULT
    | 21 => BINARY_OP vm1 (fun a b => .number (a / b)) -- OP_DIV
    | _ => .next vm1 -- no default case in the C switch: silent fall-through

/-- The run loop: iterate step until it stops, with explicit fuel (none means
the fuel was exhausted before the loop stopped). -/
def run : Nat → VM → Option RunOutcome
  | 0, _ => none
  | fuel + 1, vm =>
    match step vm with
    | .next vm2 => run fuel vm2
    | .stop out => some out

/-! Helper lemmas about the stack operations. -/

/-- Setting the slot just past a prefix replaces the final element. -/
lemma list_set_concat (l : List Value) (v w : Value) :
    (l ++ [v]).set l.length w = l ++ [w] := by
  induction l with
  | nil => rfl
  | cons x xs ih => simp [List.set, ih]

/-- popStack removes and returns the most recently pushed value. -/
lemma popStack_concat (cap : Nat) (l : List Value) (v : Value) :
    popStack ⟨cap, l ++ [v]⟩ = some (v, ⟨cap, l⟩) := by
  unfold popStack
  simp

/-- peekStackReference at distance 0 on a non-empty stack reads the top. -/
lemma peekStackReference_concat (cap : Nat) (l : List Value) (v : Value) :
    peekStackReference ⟨cap, l ++ [v]⟩ 0 = .ok v := by
  unfold peekStackReference
  have h1 : (((l ++ [v]).length : Int) - 1 - ((0 : Nat) : Int)) = (l.length : Int) := by
    simp
  rw [h1, if_neg (by omega)]
  have h2 : ((l.length : Int)).toNat = l.length := rfl
  rw [h2]
  simp [List.get?_eq_getElem?, List.getElem?_concat_length]

/-- Writing through the top reference replaces only the top slot. -/
lemma writeTop_concat (cap : Nat) (l : List Value) (v w : Value) :
    writeTop ⟨cap, l ++ [v]⟩ w = ⟨cap, l ++ [w]⟩ := by
  unfold writeTop
  simp [list_set_concat]

/-- C1: the claim states that Greater-or-equal pushes Bool(a >= b); in vm.c
the OP_GREATER_EQUAL case expands BINARY_OP with the strict > operator (the
same operator as OP_GREATER), so pushing Number 3 twice and executing
Greater-or-equal yields Bool(false) although 3 >= 3 holds.  Greater, Less and
Less-or-equal do satisfy the claim (witnessed here on sample operands). -/
theorem c1_greater_equal_uses_strict_greater :
    ((3 : ℚ) ≥ 3)
    ∧ run 2 ⟨⟨[OP_GREATER_EQUAL, OP_RET], [], [1, 1]⟩, 0, ⟨4, [.number 3, .number 3]⟩⟩
        = some ⟨.ok (.bool false), [], none, ⟨4, []⟩⟩
    ∧ run 2 ⟨⟨[OP_GREATER, OP_RET], [], [1, 1]⟩, 0, ⟨4, [.number 3, .number 2]⟩⟩
        = some ⟨.ok (.bool true), [], none, ⟨4, []⟩⟩
    ∧ run 2 ⟨⟨[OP_LESS, OP_RET], [], [1, 1]⟩, 0, ⟨4, [.number 2, .number 3]⟩⟩
        = some ⟨.ok (.bool true), [], none, ⟨4, []⟩⟩
    ∧ run 2 ⟨⟨[OP_LESS_EQUAL, OP_RET], [], [1, 1]⟩, 0, ⟨4, [.number 3, .number 3]⟩⟩
        = some ⟨.ok (.bool true), [], none, ⟨4, []⟩⟩ :=
  ⟨le_refl _, rfl, rfl, rfl, rfl⟩

/-- C2: the claim states that executing a byte that is no defined opcode
aborts the run with a fatal unknown-opcode failure.  In vm.c the dispatch
switch has no default case, so any unrecognized byte (every byte outside the
22 defined opcode values, here 22 ≤ b under the modelled numbering) is
silently skipped: the loop continues at ip + 1 with the stack unchanged and
no diagnostic, refuting the claim. -/
theorem c2_unknown_opcode_silently_skipped (vm : VM) (b : Nat)
    (hfetch : vm.chunk.code[vm.ip]? = some b) (hb : 22 ≤ b) :
    step vm = .next ⟨vm.chunk, vm.ip + 1, vm.stack⟩ := by
  obtain ⟨k, rfl⟩ : ∃ k, b = k + 22 := ⟨b - 22, by omega⟩
  unfold step
  rw [hfetch]
  rfl

/-- Witness for C2: byte 99 matches no opcode, yet the dispatch step
continues at the next byte with the stack untouched. -/
theorem c2_unknown_opcode_silently_skipped_witness :
    step ⟨⟨[99, OP_TRUE, OP_RET], [], [1, 1, 1]⟩, 0, ⟨4, []⟩⟩
      = .next ⟨⟨[99, OP_TRUE, OP_RET], [], [1, 1, 1]⟩, 1, ⟨4, []⟩⟩ :=
  c2_unknown_opcode_silently_skipped _ 99 rfl (by norm_num)

/-- C3: the claim states that peekStackReference checks the non-empty-stack
precondition like peekStack does.  In vm.c peekStack asserts non-emptiness (a
distinguishable abort) but peekStackReference performs no check at all: on an
empty stack it computes data + (count - 1 - distance) = data - 1 and the
caller dereferences it out of bounds, so Negate on an empty stack is an
unchecked access, not an abort. -/
theorem c3_peek_reference_unchecked :
    peekStack ⟨4, []⟩ 0 = .assertAbort
    ∧ peekStackReference ⟨4, []⟩ 0 = .uncheckedOutOfBounds
    ∧ PeekResult.uncheckedOutOfBounds ≠ PeekResult.assertAbort
    ∧ step ⟨⟨[OP_NEGATE], [], [1]⟩, 0, ⟨4, []⟩⟩
        = .stop ⟨.oobAccess, [], none, ⟨4, []⟩⟩
    ∧ RunResult.oobAccess ≠ RunResult.assertFail :=
  ⟨rfl, rfl, by decide, rfl, by decide⟩

/-- C5: for every pair of Number operands a (pushed first) and b (pushed
second), each arithmetic opcode pops b then a and pushes Number(a <op> b);
in particular push 10, push 3, Sub yields 7, not -7. -/
theorem c5_binary_operand_order :
    (∀ a b : ℚ,
      run 2 ⟨⟨[OP_SUB, OP_RET], [], [1, 1]⟩, 0, ⟨4, [.number a, .number b]⟩⟩
        = some ⟨.ok (.number (a - b)), [], none, ⟨4, []⟩⟩
      ∧ run 2 ⟨⟨[OP_ADD, OP_RET], [], [1, 1]⟩, 0, ⟨4, [.number a, .number b]⟩⟩
        = some ⟨.ok (.number (a + b)), [], none, ⟨4, []⟩⟩
      ∧ run 2 ⟨⟨[OP_MULT, OP_RET], [], [1, 1]⟩, 0, ⟨4, [.number a, .number b]⟩⟩
        = some ⟨.ok (.number (a * b)), [], none, ⟨4, []⟩⟩
      ∧ run 2 ⟨⟨[OP_DIV, OP_RET], [], [1, 1]⟩, 0, ⟨4, [.number a, .number b]⟩⟩
        = some ⟨.ok (.number (a / b)), [], none, ⟨4, []⟩⟩)
    ∧ run 2 ⟨⟨[OP_SUB, OP_RET], [], [1, 1]⟩, 0, ⟨4, [.number 10, .number 3]⟩⟩
        = some ⟨.ok (.number 7), [], none, ⟨4, []⟩⟩ :=
  ⟨fun a b => ⟨rfl, rfl, rfl, rfl⟩, by
    have h : run 2 ⟨⟨[OP_SUB, OP_RET], [], [1, 1]⟩, 0, ⟨4, [.number 10, .number 3]⟩⟩
        = some ⟨.ok (.number ((10 : ℚ) - 3)), [], none, ⟨4, []⟩⟩ := rfl
    norm_num at h
    exact h⟩

/-- C7: the claim states that on a tag mismatch Equal pushes false and
Not-equal pushes true.  In vm.c EQUALITY_OP pushes BOOL_VAL(false) on a tag
mismatch and BOOL_VAL(true) for Nil/Nil regardless of the operator it was
instantiated with, so Not-equal on Bool(true) vs Nil pushes false (claim says
true) and Nil not-equal Nil pushes true.  The Equal cases of the claim all
hold: tag mismatch gives false, Nil equals Nil, Bool(true) == Number(1) is
false. -/
theorem c7_not_equal_tag_mismatch_pushes_false :
    run 2 ⟨⟨[OP_NOT_EQUAL, OP_RET], [], [1, 1]⟩, 0, ⟨4, [.bool true, .nil]⟩⟩
      = some ⟨.ok (.bool false), [], none, ⟨4, []⟩⟩
    ∧ run 2 ⟨⟨[OP_EQUAL, OP_RET], [], [1, 1]⟩, 0, ⟨4, [.bool true, .nil]⟩⟩
      = some ⟨.ok (.bool false), [], none, ⟨4, []⟩⟩
    ∧ run 2 ⟨⟨[OP_EQUAL, OP_RET], [], [1, 1]⟩, 0, ⟨4, [.nil, .nil]⟩⟩
      = some ⟨.ok (.bool true), [], none, ⟨4, []⟩⟩
    ∧ run 2 ⟨⟨[OP_EQUAL, OP_RET], [], [1, 1]⟩, 0, ⟨4, [.bool true, .number 1]⟩⟩
      = some ⟨.ok (.bool false), [], none, ⟨4, []⟩⟩
    ∧ run 2 ⟨⟨[OP_NOT_EQUAL, OP_RET], [], [1, 1]⟩, 0, ⟨4, [.nil, .nil]⟩⟩
      = some ⟨.ok (.bool true), [], none, ⟨4, []⟩⟩ :=
  ⟨rfl, rfl, rfl, rfl, rfl⟩

/-- C6: with a Number on top, Negate replaces the top in place with its
negation and Increment / Decrement with value plus / minus one, leaving the
other slots, the count and the capacity unchanged; with a non-Number on top
each of the three opcodes reports the TypeError "Operand must be a number."
and leaves the stack reset (empty). -/
theorem c6_unary_in_place_semantics (ch : Chunk) (ip cap : Nat) (rest : List Value) :
    (∀ n : ℚ, ch.code[ip]? = some OP_NEGATE →
      step ⟨ch, ip, ⟨cap, rest ++ [.number n]⟩⟩
        = .next ⟨ch, ip + 1, ⟨cap, rest ++ [.number (-n)]⟩⟩)
    ∧ (∀ n : ℚ, ch.code[ip]? = some OP_INC →
      step ⟨ch, ip, ⟨cap, rest ++ [.number n]⟩⟩
        = .next ⟨ch, ip + 1, ⟨cap, rest ++ [.number (n + 1)]⟩⟩)
    ∧ (∀ n : ℚ, ch.code[ip]? = some OP_DEC →
      step ⟨ch, ip, ⟨cap, rest ++ [.number n]⟩⟩
        = .next ⟨ch, ip + 1, ⟨cap, rest ++ [.number (n - 1)]⟩⟩)
    ∧ (∀ v : Value, v.isNumber = false →
      ∀ op : Nat, (op = OP_NEGATE ∨ op = OP_INC ∨ op = OP_DEC) →
      ch.code[ip]? = some op →
      step ⟨ch, ip, ⟨cap, rest ++ [v]⟩⟩
        = .stop ⟨.runtimeErr, [("Operand must be a number.", (ch.lines[ip]?).getD 0)],
            some (ip + 1), ⟨cap, []⟩⟩) := by
  refine ⟨fun n h => ?_, fun n h => ?_, fun n h => ?_, fun v hv op hop h => ?_⟩
  · simp only [step, h, OP_NEGATE]
    simp [unaryNumOp, peekStackReference_concat, Value.isNumber, Value.asNumber,
      writeTop_concat, mul_neg_one]
  · simp only [step, h, OP_INC]
    simp [unaryNumOp, peekStackReference_concat, Value.isNumber, Value.asNumber,
      writeTop_concat]
  · simp only [step, h, OP_DEC]
    simp [unaryNumOp, peekStackReference_concat, Value.isNumber, Value.asNumber,
      writeTop_concat]
  · rcases hop with rfl | rfl | rfl <;>
      simp [step, h, OP_NEGATE, OP_INC, OP_DEC, unaryNumOp, peekStackReference_concat,
        hv, runtimeError, resetStack, Nat.add_sub_cancel]

/-- Witness for C6: Negate, Increment and Decrement on Number 3, and Negate on
Bool true (TypeError, stack reset). -/
theorem c6_unary_in_place_semantics_witness :
    step ⟨⟨[OP_NEGATE], [], [1]⟩, 0, ⟨4, [.number 3]⟩⟩
      = .next ⟨⟨[OP_NEGATE], [], [1]⟩, 1, ⟨4, [.number (-3)]⟩⟩
    ∧ step ⟨⟨[OP_INC], [], [1]⟩, 0, ⟨4, [.number 3]⟩⟩
      = .next ⟨⟨[OP_INC], [], [1]⟩, 1, ⟨4, [.number (3 + 1)]⟩⟩
    ∧ step ⟨⟨[OP_DEC], [], [1]⟩, 0, ⟨4, [.number 3]⟩⟩
      = .next ⟨⟨[OP_DEC], [], [1]⟩, 1, ⟨4, [.number (3 - 1)]⟩⟩
    ∧ step ⟨⟨[OP_NEGATE], [], [7]⟩, 0, ⟨4, [.bool true]⟩⟩
      = .stop ⟨.runtimeErr, [("Operand must be a number.", 7)], some 1, ⟨4, []⟩⟩ :=
  ⟨(c6_unary_in_place_semantics ⟨[OP_NEGATE], [], [1]⟩ 0 4 []).1 3 rfl,
   (c6_unary_in_place_semantics ⟨[OP_INC], [], [1]⟩ 0 4 []).2.1 3 rfl,
   (c6_unary_in_place_semantics ⟨[OP_DEC], [], [1]⟩ 0 4 []).2.2.1 3 rfl,
   (c6_unary_in_place_semantics ⟨[OP_NEGATE], [], [7]⟩ 0 4 []).2.2.2
     (.bool true) rfl OP_NEGATE (Or.inl rfl) rfl⟩

/-- C8: Load-constant reads the one-byte pool index, and pushes the indexed
constant and continues (cursor past the operand byte) when it is a Number;
when the constant is not a Number the run fails with the TypeError
"Operand must be a number." and the stack is reset, so nothing is pushed. -/
theorem c8_constant_load_numeric_only (ch : Chunk) (ip : Nat) (s : Stack)
    (idx : Nat) (c : Value)
    (h0 : ch.code[ip]? = some OP_CONSTANT)
    (h1 : ch.code[ip + 1]? = some idx)
    (h2 : ch.constants[idx]? = some c) :
    (c.isNumber = true → step ⟨ch, ip, s⟩ = .next ⟨ch, ip + 1 + 1, pushStack s c⟩)
    ∧ (c.isNumber = false → step ⟨ch, ip, s⟩
        = .stop ⟨.runtimeErr, [("Operand must be a number.", (ch.lines[ip]?).getD 0)],
            some (ip + 1), resetStack s⟩) := by
  constructor <;> intro hc <;>
    simp [step, h0, OP_CONSTANT, h1, h2, hc, runtimeError, Nat.add_sub_cancel]

/-- Witness for C8: loading the Number constant 5 pushes it; loading the
Nil constant reports the TypeError with the line resolved at the opcode. -/
theorem c8_constant_load_numeric_only_witness :
    step ⟨⟨[OP_CONSTANT, 0, OP_RET], [.number 5], [1, 1, 1]⟩, 0, ⟨4, []⟩⟩
      = .next ⟨⟨[OP_CONSTANT, 0, OP_RET], [.number 5], [1, 1, 1]⟩, 2, pushStack ⟨4, []⟩ (.number 5)⟩
    ∧ step ⟨⟨[OP_CONSTANT, 0, OP_RET], [.nil], [9, 9, 9]⟩, 0, ⟨4, []⟩⟩
      = .stop ⟨.runtimeErr, [("Operand must be a number.", 9)], some 1, resetStack ⟨4, []⟩⟩ :=
  ⟨(c8_constant_load_numeric_only ⟨[OP_CONSTANT, 0, OP_RET], [.number 5], [1, 1, 1]⟩
      0 ⟨4, []⟩ 0 (.number 5) rfl rfl rfl).1 rfl,
   (c8_constant_load_numeric_only ⟨[OP_CONSTANT, 0, OP_RET], [.nil], [9, 9, 9]⟩
      0 ⟨4, []⟩ 0 .nil rfl rfl rfl).2 rfl⟩

/-- C10: when the run reaches the Return opcode with a non-empty stack, it
pops exactly the top value, yields it as the Ok result and terminates; the
stack is not reset on success, so the values beneath the returned one and the
capacity are unchanged (the count drops by exactly one) and no diagnostic is
emitted. -/
theorem c10_return_pops_one_value (ch : Chunk) (ip fuel cap : Nat)
    (rest : List Value) (v : Value) (h : ch.code[ip]? = some OP_RET) :
    run (fuel + 1) ⟨ch, ip, ⟨cap, rest ++ [v]⟩⟩
      = some ⟨.ok v, [], none, ⟨cap, rest⟩⟩ := by
  simp [run, step, h, OP_RET, popStack_concat]

/-- Witness for C10: Return on stack [Number 2, Bool true] yields Ok(true)
and leaves Number 2 in place beneath. -/
theorem c10_return_pops_one_value_witness :
    run 1 ⟨⟨[OP_RET], [], [1]⟩, 0, ⟨4, [.number 2, .bool true]⟩⟩
      = some ⟨.ok (.bool true), [], none, ⟨4, [.number 2]⟩⟩ :=
  c10_return_pops_one_value _ 0 0 4 [.number 2] (.bool true) rfl

/-! Repeated pushes and pops, for the stack-growth property. -/

/-- N pushes in sequence. -/
def pushMany (s : Stack) (vs : List Value) : Stack := vs.foldl pushStack s

/-- N pops in sequence, collecting the popped values in pop order; `none` if
any pop hits an empty stack (failed assert). -/
def popMany : Stack → Nat → Option (List Value × Stack)
  | s, 0 => some ([], s)
  | s, n + 1 =>
    match popStack s with
    | none => none
    | some (v, s1) =>
      match popMany s1 n with
      | none => none
      | some (vs, s2) => some (v :: vs, s2)

/-- pushStack appends the value, preserving existing entries and order. -/
lemma pushStack_data (s : Stack) (v : Value) : (pushStack s v).data = s.data ++ [v] := rfl

/-- pushStack never decreases the capacity. -/
lemma pushStack_capacity_mono (s : Stack) (v : Value) :
    s.capacity ≤ (pushStack s v).capacity := by
  unfold pushStack
  dsimp only
  split <;> omega

/-- pushStack preserves the stack invariant 0 < capacity ∧ count ≤ capacity. -/
lemma pushStack_inv (s : Stack) (v : Value)
    (hinv : s.data.length ≤ s.capacity) (hcap : 0 < s.capacity) :
    (pushStack s v).data.length ≤ (pushStack s v).capacity
      ∧ 0 < (pushStack s v).capacity := by
  unfold pushStack isStackFull
  simp only [List.length_append, List.length_cons, List.length_nil]
  split <;> rename_i hfull <;> simp_all <;> omega

/-- pushMany appends the values in order, preserving existing entries. -/
lemma pushMany_data (s : Stack) (vs : List Value) :
    (pushMany s vs).data = s.data ++ vs := by
  induction vs generalizing s with
  | nil => simp [pushMany]
  | cons v vs ih =>
    show (pushMany (pushStack s v) vs).data = _
    rw [ih, pushStack_data]
    simp

/-- pushMany never decreases the capacity. -/
lemma pushMany_capacity_mono (s : Stack) (vs : List Value) :
    s.capacity ≤ (pushMany s vs).capacity := by
  induction vs generalizing s with
  | nil => exact le_refl _
  | cons v vs ih =>
    exact le_trans (pushStack_capacity_mono s v) (ih (pushStack s v))

/-- pushMany preserves the stack invariant. -/
lemma pushMany_inv (s : Stack) (vs : List Value)
    (hinv : s.data.length ≤ s.capacity) (hcap : 0 < s.capacity) :
    (pushMany s vs).data.length ≤ (pushMany s vs).capacity
      ∧ 0 < (pushMany s vs).capacity := by
  induction vs generalizing s with
  | nil => exact ⟨hinv, hcap⟩
  | cons v vs ih =>
    obtain ⟨h1, h2⟩ := pushStack_inv s v hinv hcap
    exact ih (pushStack s v) h1 h2

/-- Popping exactly the suffix vs returns its values in LIFO (reverse-push)
order and uncovers the prefix unchanged. -/
lemma popMany_append (cap : Nat) (l vs : List Value) :
    popMany ⟨cap, l ++ vs⟩ vs.length = some (vs.reverse, ⟨cap, l⟩) := by
  induction vs using List.reverseRecOn with
  | nil => simp [popMany]
  | append_singleton ws w ih =>
    have hlen : (ws ++ [w]).length = ws.length + 1 := by simp
    rw [hlen]
    show (match popStack ⟨cap, l ++ (ws ++ [w])⟩ with
      | none => none
      | some (v, s1) =>
        match popMany s1 ws.length with
        | none => none
        | some (vs2, s2) => some (v :: vs2, s2)) = _
    rw [show l ++ (ws ++ [w]) = (l ++ ws) ++ [w] by simp, popStack_concat]
    show (match popMany ⟨cap, l ++ ws⟩ ws.length with
      | none => none
      | some (vs2, s2) => some (w :: vs2, s2)) = _
    rw [ih]
    simp

/-- C9: from any stack state satisfying the invariant 0 < capacity (as
installed by initStack) and count ≤ capacity, any sequence of pushes
succeeds: the pushed values are appended preserving all existing entries and
their order, the capacity never decreases, the invariant is preserved, and
popping the same number of values returns them uncorrupted in LIFO order with
the original entries (and in particular an initially empty stack is empty
again after N pushes and N pops). -/
theorem c9_push_growth_preserves_entries (s : Stack) (vs : List Value)
    (hinv : s.data.length ≤ s.capacity) (hcap : 0 < s.capacity) :
    (pushMany s vs).data = s.data ++ vs
    ∧ s.capacity ≤ (pushMany s vs).capacity
    ∧ (pushMany s vs).data.length ≤ (pushMany s vs).capacity
    ∧ 0 < (pushMany s vs).capacity
    ∧ popMany (pushMany s vs) vs.length
        = some (vs.reverse, ⟨(pushMany s vs).capacity, s.data⟩) := by
  obtain ⟨h1, h2⟩ := pushMany_inv s vs hinv hcap
  refine ⟨pushMany_data s vs, pushMany_capacity_mono s vs, h1, h2, ?_⟩
  have heq : pushMany s vs = ⟨(pushMany s vs).capacity, s.data ++ vs⟩ := by
    cases hview : pushMany s vs with
    | mk c d =>
      have := pushMany_data s vs
      rw [hview] at this
      simp only at this
      rw [this]
  rw [heq]
  exact popMany_append _ s.data vs

/-- Witness for C9: pushing three values onto an initially empty stack of
capacity 1 grows the capacity (1 → 2 → 4) and popping three times returns
them in LIFO order leaving the stack empty. -/
theorem c9_push_growth_preserves_entries_witness :
    (pushMany ⟨1, []⟩ [.number 1, .number 2, .number 3]).data
        = [] ++ [.number 1, .number 2, .number 3]
    ∧ (1 : Nat) ≤ (pushMany ⟨1, []⟩ [.number 1, .number 2, .number 3]).capacity
    ∧ (pushMany ⟨1, []⟩ [.number 1, .number 2, .number 3]).data.length
        ≤ (pushMany ⟨1, []⟩ [.number 1, .number 2, .number 3]).capacity
    ∧ (0 : Nat) < (pushMany ⟨1, []⟩ [.number 1, .number 2, .number 3]).capacity
    ∧ popMany (pushMany ⟨1, []⟩ [.number 1, .number 2, .number 3]) 3
        = some ([.number 3, .number 2, .number 1],
            ⟨(pushMany ⟨1, []⟩ [.number 1, .number 2, .number 3]).capacity, []⟩) :=
  c9_push_growth_preserves_entries ⟨1, []⟩ [.number 1, .number 2, .number 3]
    (by decide) (by decide)

/-- The short-circuit of the BINARY_OP guard, exhibited concretely: with
exactly one live slot holding a non-Number, peek(0) already fails the
IS_NUMBER test, peek(1) is never evaluated, and the step ends in the
"Operands must be numbers." runtime error with the line resolved at the
opcode byte and the stack reset — a defined error path, not an out-of-bounds
access. -/
lemma BINARY_OP_short_circuit_one_slot :
    step ⟨⟨[OP_ADD], [], [3]⟩, 0, ⟨4, [.bool true]⟩⟩
      = .stop ⟨.runtimeErr, [("Operands must be numbers.", 3)], some 1, ⟨4, []⟩⟩ := rfl

/-- The reporting contract of a runtime error: exactly one diagnostic was
emitted, the stack was reset (count 0), and the diagnostic's source line was
resolved via the line table at the offset of the faulting instruction's
opcode byte (the cursor position at the failure, minus one, which indeed
holds an opcode of the executed program). -/
def GoodDiag (c : Chunk) (out : RunOutcome) : Prop :=
  out.diags.length = 1 ∧ out.stack.data = [] ∧
  ∃ msg ipe opb, out.errIp = some ipe ∧ 1 ≤ ipe ∧
    c.code[ipe - 1]? = some opb ∧
    out.diags = [(msg, (c.lines[ipe - 1]?).getD 0)]

/-- The outcome built by runtimeError satisfies the reporting contract, for
an engine state whose cursor sits one past a fetched opcode byte. -/
lemma GoodDiag_runtimeError (c : Chunk) (ip : Nat) (st : Stack) (msg : String)
    (b : Nat) (hfetch : c.code[ip]? = some b) :
    GoodDiag c (runtimeError ⟨c, ip + 1, st⟩ msg) := by
  refine ⟨rfl, rfl, msg, ip + 1, b, rfl, by omega, ?_, rfl⟩
  simpa using hfetch

/-- A runtime-error stop of BINARY_OP is exactly the runtimeError outcome for
the operand TypeError. -/
lemma BINARY_OP_stop (vm : VM) (mk : ℚ → ℚ → Value) (out : RunOutcome)
    (h : BINARY_OP vm mk = .stop out) (hr : out.result = .runtimeErr) :
    out = runtimeError vm "Operands must be numbers." := by
  unfold BINARY_OP at h
  repeat' split at h
  all_goals cases h
  all_goals simp_all

/-- BINARY_LOGIC_OP can only stop on a failed pop assert. -/
lemma BINARY_LOGIC_OP_stop (vm : VM) (op : Bool → Bool → Bool) (out : RunOutcome)
    (h : BINARY_LOGIC_OP vm op = .stop out) : out.result = .assertFail := by
  unfold BINARY_LOGIC_OP at h
  repeat' split at h
  all_goals cases h
  all_goals rfl

/-- EQUALITY_OP can only stop on a failed pop assert. -/
lemma EQUALITY_OP_stop (vm : VM) (bop : Bool → Bool → Bool) (qop : ℚ → ℚ → Bool)
    (out : RunOutcome) (h : EQUALITY_OP vm bop qop = .stop out) :
    out.result = .assertFail := by
  unfold EQUALITY_OP at h
  repeat' split at h
  all_goals cases h
  all_goals rfl

/-- A runtime-error stop of a unary in-place opcode is exactly the
runtimeError outcome for the operand TypeError. -/
lemma unaryNumOp_stop (vm : VM) (f : ℚ → ℚ) (out : RunOutcome)
    (h : unaryNumOp vm f = .stop out) (hr : out.result = .runtimeErr) :
    out = runtimeError vm "Operand must be a number." := by
  unfold unaryNumOp at h
  repeat' split at h
  all_goals cases h
  all_goals simp_all

/-- BINARY_OP leaves the chunk unchanged when it continues. -/
lemma BINARY_OP_next (vm : VM) (mk : ℚ → ℚ → Value) (vm2 : VM)
    (h : BINARY_OP vm mk = .next vm2) : vm2.chunk = vm.chunk := by
  unfold BINARY_OP at h
  repeat' split at h
  all_goals cases h <;> rfl

/-- BINARY_LOGIC_OP leaves the chunk unchanged when it continues. -/
lemma BINARY_LOGIC_OP_next (vm : VM) (op : Bool → Bool → Bool) (vm2 : VM)
    (h : BINARY_LOGIC_OP vm op = .next vm2) : vm2.chunk = vm.chunk := by
  unfold BINARY_LOGIC_OP at h
  repeat' split at h
  all_goals cases h <;> rfl

/-- EQUALITY_OP leaves the chunk unchanged when it continues. -/
lemma EQUALITY_OP_next (vm : VM) (bop : Bool → Bool → Bool) (qop : ℚ → ℚ → Bool)
    (vm2 : VM) (h : EQUALITY_OP vm bop qop = .next vm2) : vm2.chunk = vm.chunk := by
  unfold EQUALITY_OP at h
  repeat' split at h
  all_goals cases h <;> rfl

/-- A unary in-place opcode leaves the chunk unchanged when it continues. -/
lemma unaryNumOp_next (vm : VM) (f : ℚ → ℚ) (vm2 : VM)
    (h : unaryNumOp vm f = .next vm2) : vm2.chunk = vm.chunk := by
  unfold unaryNumOp at h
  repeat' split at h
  all_goals cases h <;> rfl

/-- The dispatch step never swaps the program: a continuing step preserves
the chunk. -/
lemma step_next_chunk (vm vm2 : VM) (h : step vm = .next vm2) :
    vm2.chunk = vm.chunk := by
  simp only [step] at h
  split at h
  · cases h
  · split at h <;> (repeat' split at h) <;>
      first
        | (cases h <;> rfl)
        | (have h2 := BINARY_OP_next _ _ _ h; exact h2)
        | (have h2 := BINARY_LOGIC_OP_next _ _ _ h; exact h2)
        | (have h2 := EQUALITY_OP_next _ _ _ _ h; exact h2)
        | (have h2 := unaryNumOp_next _ _ _ h; exact h2)

/-- Any step that stops with a runtime error satisfies the reporting
contract. -/
lemma step_stop_runtimeErr (vm : VM) (out : RunOutcome)
    (h : step vm = .stop out) (hr : out.result = .runtimeErr) :
    GoodDiag vm.chunk out := by
  simp only [step] at h
  split at h
  · cases h; simp at hr
  · split at h <;> (repeat' split at h) <;>
      first
        | (cases h; exact absurd hr (by simp))
        | (cases h; exact GoodDiag_runtimeError _ _ _ _ _ (by assumption))
        | cases h
        | (rw [BINARY_OP_stop _ _ _ h hr]
           exact GoodDiag_runtimeError _ _ _ _ _ (by assumption))
        | (have h2 := BINARY_LOGIC_OP_stop _ _ _ h; rw [h2] at hr
           exact absurd hr (by simp))
        | (have h2 := EQUALITY_OP_stop _ _ _ _ h; rw [h2] at hr
           exact absurd hr (by simp))
        | (rw [unaryNumOp_stop _ _ _ h hr]
           exact GoodDiag_runtimeError _ _ _ _ _ (by assumption))

/-- C4: every run that returns the RuntimeError outcome emitted exactly one
diagnostic, whose source line is resolved from the faulting instruction's
opcode offset via the line table, and left the evaluation stack reset
(count 0), exposing no partial stack state. -/
theorem c4_runtime_error_reporting (fuel : Nat) (vm : VM) (out : RunOutcome)
    (h : run fuel vm = some out) (hr : out.result = .runtimeErr) :
    GoodDiag vm.chunk out := by
  induction fuel generalizing vm out with
  | zero => cases h
  | succ n ih =>
    simp only [run] at h
    cases hstep : step vm with
    | next vm2 =>
      rw [hstep] at h
      have hgood := ih vm2 out h hr
      rwa [step_next_chunk vm vm2 hstep] at hgood
    | stop o =>
      rw [hstep] at h
      cases h
      exact step_stop_runtimeErr vm out hstep hr

/-- Witness for C4: Negate applied to Bool true reports exactly the
TypeError diagnostic with the line (7) looked up at the opcode offset, and
the final stack is empty. -/
theorem c4_runtime_error_reporting_witness :
    GoodDiag ⟨[OP_NEGATE], [], [7]⟩
      ⟨.runtimeErr, [("Operand must be a number.", 7)], some 1, ⟨4, []⟩⟩ :=
  c4_runtime_error_reporting 1 ⟨⟨[OP_NEGATE], [], [7]⟩, 0, ⟨4, [.bool true]⟩⟩
    ⟨.runtimeErr, [("Operand must be a number.", 7)], some 1, ⟨4, []⟩⟩ rfl rfl
